import Mathlib

set_option maxHeartbeats 1000000

deriving instance DecidableEq for Except

namespace Datalair

/-- Exception kinds raised by the embedded code. The constructor encodes the
Python exception class; the string payload abbreviates the message. The
unitError constructor stands for an arbitrary exception raised inside a
derivation unit's own logic. -/
inductive Err where
  | assertionError (msg : String)
  | typeError (msg : String)
  | valueError (msg : String)
  | ioError (msg : String)
  | fileExistsError (msg : String)
  | fileNotFoundError (msg : String)
  | attributeError (msg : String)
  | keyError (msg : String)
  | osError (msg : String)
  | unitError (msg : String)
deriving Repr, DecidableEq

/-- The five-valued status enumeration; LairStatus in _lair.py and StoreStatus
in store.py are textually identical, so they share one embedding. -/
inductive StoreStatus where
  | notExist
  | notDirectory
  | configMissing
  | malformed
  | ok
deriving Repr, DecidableEq

/-- Filesystem state of one store root: whether the root directory exists,
whether the marker file named config is present in it, the immediate
subdirectories (directory name paired with the names of the files inside it),
and the plain files sitting directly in the root besides the marker file. -/
structure FS where
  rootExists : Bool
  configExists : Bool
  dirs : List (String × List String)
  rootFiles : List String
deriving Repr, DecidableEq

/-- Look up the file list of the subdirectory with the given name. -/
def findDir (n : String) : List (String × List String) → Option (List String)
  | [] => none
  | (m, fs) :: rest => if m = n then some fs else findDir n rest

/-- Remove every subdirectory entry with the given name (models rmtree of a
dataset directory). -/
def removeDir (n : String) : List (String × List String) → List (String × List String)
  | [] => []
  | (m, fs) :: rest => if m = n then removeDir n rest else (m, fs) :: removeDir n rest

/-- Apply a transformation to the file list of the subdirectory with the given
name, leaving every other entry unchanged. -/
def setDirFiles (n : String) (g : List String → List String) :
    List (String × List String) → List (String × List String)
  | [] => []
  | (m, fs) :: rest =>
    (if m = n then (m, g fs) else (m, fs)) :: setDirFiles n g rest

/-- Write a file into a directory listing: creating a file that already exists
overwrites it in place, so the name set gains at most the new name. -/
def insertFile (f : String) (fs : List String) : List String :=
  if f ∈ fs then fs else fs ++ [f]

theorem findDir_append_of_none (k : String) (l1 l2 : List (String × List String))
    (h : findDir k l1 = none) : findDir k (l1 ++ l2) = findDir k l2 := by
  induction l1 with
  | nil => rfl
  | cons p rest ih =>
    obtain ⟨m, fs⟩ := p
    simp only [findDir, List.cons_append] at h ⊢
    split at h
    · simp at h
    · rename_i hm
      rw [if_neg hm]
      exact ih h

theorem findDir_setDirFiles (k n : String) (g : List String → List String)
    (l : List (String × List String)) :
    findDir k (setDirFiles n g l) = if k = n then (findDir n l).map g else findDir k l := by
  induction l with
  | nil => simp [setDirFiles, findDir]
  | cons p rest ih =>
    obtain ⟨m, fs⟩ := p
    simp only [setDirFiles]
    by_cases hmn : m = n
    · subst hmn
      rw [if_pos rfl]
      by_cases hkm : k = m
      · subst hkm
        simp [findDir]
      · have h1 : ¬ m = k := fun h => hkm h.symm
        simp only [findDir, if_neg h1, if_neg hkm]
        simpa only [if_neg hkm] using ih
    · rw [if_neg hmn]
      by_cases hkm : k = m
      · subst hkm
        have h2 : ¬ k = n := hmn
        simp [findDir, if_neg h2]
      · have h1 : ¬ m = k := fun h => hkm h.symm
        simp only [findDir, if_neg h1, if_neg hmn, ih]

theorem findDir_removeDir (k n : String) (l : List (String × List String)) :
    findDir k (removeDir n l) = if k = n then none else findDir k l := by
  induction l with
  | nil => simp [removeDir, findDir]
  | cons p rest ih =>
    obtain ⟨m, fs⟩ := p
    simp only [removeDir]
    by_cases hmn : m = n
    · subst hmn
      rw [if_pos rfl, ih]
      by_cases hkm : k = m
      · subst hkm
        simp [findDir]
      · have h1 : ¬ m = k := fun h => hkm h.symm
        simp only [findDir, if_neg h1, if_neg hkm]
    · rw [if_neg hmn]
      by_cases hkm : k = m
      · subst hkm
        simp [findDir, hmn]
      · have h1 : ¬ m = k := fun h => hkm h.symm
        simp only [findDir, if_neg h1, ih]

theorem findDir_append_self (n : String) (v : List String)
    (l : List (String × List String)) (h : findDir n l = none) :
    findDir n (l ++ [(n, v)]) = some v := by
  rw [findDir_append_of_none n l _ h]
  simp [findDir]

/-- The status classification shared by Lair.status and Store.status: the root
path absent gives NOT_EXIST, the marker file absent gives MALFORMED, otherwise
the store is OK. -/
def statusFS (s : FS) : StoreStatus :=
  if s.rootExists = false then .notExist
  else if s.configExists = false then .malformed
  else .ok

/-- Shared dataset_exists primitive: the dataset path must exist and be a
directory; an entry among the plain files would exist without being a
directory and therefore does not count. -/
def datasetExists (s : FS) (n : String) : Bool :=
  (findDir n s.dirs).isSome

/-- Shared assert_ok_satus: an assertion failure unless the status is OK. -/
def assertOk (s : FS) : Except Err Unit :=
  if statusFS s = .ok then .ok () else .error (.assertionError "Store is not ok")

theorem assertOk_of_ok (s : FS) (h : statusFS s = .ok) : assertOk s = .ok () := by
  simp [assertOk, h]

theorem statusFS_ok_iff (s : FS) :
    statusFS s = .ok ↔ (s.rootExists = true ∧ s.configExists = true) := by
  unfold statusFS
  constructor
  · intro h
    by_cases h1 : s.rootExists = false
    · rw [if_pos h1] at h
      cases h
    · by_cases h2 : s.configExists = false
      · rw [if_neg h1, if_pos h2] at h
        cases h
      · exact ⟨by revert h1 ; cases s.rootExists <;> simp, by revert h2 ; cases s.configExists <;> simp⟩
  · intro ⟨h1, h2⟩
    rw [h1, h2]
    simp

/-- Lowercase hexadecimal digit predicate, the character class of the pattern
in store.py. -/
def isLowerHexDigit (c : Char) : Bool :=
  (('0' ≤ c) && (c ≤ '9')) || (('a' ≤ c) && (c ≤ 'f'))

/-- Hexadecimal digit of either case, the character class of the pattern in
the UUID class. -/
def isHexDigitAnyCase (c : Char) : Bool :=
  (('0' ≤ c) && (c ≤ '9')) || (('a' ≤ c) && (c ≤ 'f')) || (('A' ≤ c) && (c ≤ 'F'))

/-- Evaluation of Pattern.match with an anchored sixteen-character class
pattern. The dollar anchor of the Python regular expression engine also
matches just before one newline at the very end of the string, so the
accepted strings are sixteen matching characters, or sixteen matching
characters followed by one trailing newline character. -/
def pyMatchHex16 (hex : Char → Bool) (s : String) : Bool :=
  ((s.data.length == 16) && s.data.all hex) ||
  ((s.data.length == 17) && (s.data.take 16).all hex
    && (s.data.getLast? == some (Char.ofNat 10)))

/-- Python input values for UUID construction: a string, or a value of any
other type. -/
inductive PyInput where
  | pyStr (s : String)
  | nonString

/-- UUID construction from _uuid.py: a TypeError for a value that is not a
string, a ValueError when the anchored pattern does not match, and otherwise
the string itself is returned unchanged. -/
def uuidNew : PyInput → Except Err String
  | .nonString => .error (.typeError "Hex16String must be created from a string")
  | .pyStr v =>
    if pyMatchHex16 isHexDigitAnyCase v then .ok v
    else .error (.valueError "not a valid 16 digit hexadecimal string")

/-- Character of one hexadecimal digit, lowercase, as produced by the Python
hexadecimal format specifier. -/
def hexDigitChar (n : Nat) : Char :=
  if n < 10 then Char.ofNat (48 + n) else Char.ofNat (87 + n)

/-- Hexadecimal digit expansion with explicit fuel, most significant digit
first; the fuel always exceeds the argument so the recursion never exhausts
it. -/
def toHexCharsAux : Nat → Nat → List Char
  | 0, _ => []
  | fuel + 1, n =>
    if n < 16 then [hexDigitChar n]
    else toHexCharsAux fuel (n / 16) ++ [hexDigitChar (n % 16)]

/-- The Python format specifier 016x applied to a natural number: lowercase
hexadecimal digits, left padded with zero characters to a minimum width of
sixteen. -/
def pyFormat016x (n : Nat) : String :=
  String.mk (List.replicate (16 - (toHexCharsAux (n + 1) n).length) '0'
    ++ toHexCharsAux (n + 1) n)

/-- DatasetFunction construction from store.py restricted to an integer uuid
argument: the first assertion requires the value to lie between zero and
sixteen to the sixteenth power inclusive, the value is then formatted as
zero-padded lowercase hexadecimal, and the second assertion requires the
formatted string to match the anchored lowercase pattern. -/
def datasetFunctionInitInt (n : Int) : Except Err String :=
  if 0 ≤ n ∧ n ≤ 16 ^ 16 then
    if pyMatchHex16 isLowerHexDigit (pyFormat016x n.toNat) then .ok (pyFormat016x n.toNat)
    else .error (.assertionError "uuid must be a 16 digit hexadecimal string")
  else .error (.assertionError "uuid must be between 0 and 16 to the 16")

theorem hexDigitChar_lower (n : Nat) (h : n < 16) :
    isLowerHexDigit (hexDigitChar n) = true := by
  interval_cases n <;> decide

theorem toHexCharsAux_all_lower (fuel : Nat) :
    ∀ n, n < fuel → (toHexCharsAux fuel n).all isLowerHexDigit = true := by
  induction fuel with
  | zero => omega
  | succ fuel ih =>
    intro n hn
    simp only [toHexCharsAux]
    split
    · rename_i h16
      simp [hexDigitChar_lower n h16]
    · rename_i h16
      push_neg at h16
      have hrec : n / 16 < fuel := by
        have : n / 16 < n := Nat.div_lt_self (by omega) (by omega)
        omega
      have hmod : n % 16 < 16 := Nat.mod_lt _ (by omega)
      simp [List.all_append, ih (n / 16) hrec, hexDigitChar_lower (n % 16) hmod]

theorem toHexCharsAux_length_le (k : Nat) :
    ∀ fuel n, n < 16 ^ (k + 1) → n < fuel → (toHexCharsAux fuel n).length ≤ k + 1 := by
  induction k with
  | zero =>
    intro fuel n hpow hfuel
    cases fuel with
    | zero => omega
    | succ fuel =>
      simp only [toHexCharsAux]
      rw [if_pos (by simpa using hpow)]
      simp
  | succ k ih =>
    intro fuel n hpow hfuel
    cases fuel with
    | zero => omega
    | succ fuel =>
      simp only [toHexCharsAux]
      split
      · simp
      · rename_i h16
        push_neg at h16
        have h1 : n / 16 < 16 ^ (k + 1) := by
          rw [Nat.div_lt_iff_lt_mul (by norm_num)]
          calc n < 16 ^ (k + 1 + 1) := hpow
          _ = 16 ^ (k + 1) * 16 := by ring
        have h2 : n / 16 < fuel := by
          have : n / 16 < n := Nat.div_lt_self (by omega) (by omega)
          omega
        have := ih fuel (n / 16) h1 h2
        simp only [List.length_append, List.length_cons, List.length_nil]
        omega

theorem pyFormat016x_spec (n : Nat) (h : n < 16 ^ 16) :
    (pyFormat016x n).data.length = 16 ∧ (pyFormat016x n).data.all isLowerHexDigit = true := by
  have hlen : (toHexCharsAux (n + 1) n).length ≤ 16 := by
    have := toHexCharsAux_length_le 15 (n + 1) n (by exact h) (by omega)
    omega
  have hall : (toHexCharsAux (n + 1) n).all isLowerHexDigit = true :=
    toHexCharsAux_all_lower (n + 1) n (by omega)
  constructor
  · show (List.replicate (16 - (toHexCharsAux (n + 1) n).length) '0'
      ++ toHexCharsAux (n + 1) n).length = 16
    simp only [List.length_append, List.length_replicate]
    omega
  · show (List.replicate (16 - (toHexCharsAux (n + 1) n).length) '0'
      ++ toHexCharsAux (n + 1) n).all isLowerHexDigit = true
    rw [List.all_eq_true]
    intro c hc
    rw [List.mem_append] at hc
    cases hc with
    | inl hc =>
      rw [List.eq_of_mem_replicate hc]
      decide
    | inr hc =>
      rw [List.all_eq_true] at hall
      exact hall c hc

/-- Claim C3: UUID construction accepts every string of exactly sixteen
hexadecimal characters and round-trips it, rejects non-strings with a
TypeError and short strings with a ValueError — but, against the claim, it
also accepts the seventeen-character string of sixteen hexadecimal digits
followed by a newline, because the dollar anchor of the pattern matches
before a trailing newline. -/
theorem c3_uuid_trailing_newline_accepted :
    uuidNew (.pyStr "0123456789abcdef\n") = .ok "0123456789abcdef\n" ∧
    ("0123456789abcdef\n".data.length = 17) ∧
    uuidNew (.pyStr "0123456789abcDEF") = .ok "0123456789abcDEF" ∧
    uuidNew .nonString = .error (.typeError "Hex16String must be created from a string") ∧
    uuidNew (.pyStr "0123") = .error (.valueError "not a valid 16 digit hexadecimal string") := by
  refine ⟨by decide, by decide, by decide, rfl, by decide⟩

/-- Claim C9: DatasetFunction construction from an integer uuid succeeds for
exactly the integers from zero to sixteen to the sixteenth power minus one,
stores the sixteen-digit zero-padded lowercase hexadecimal rendering of the
integer, and fails with an assertion error for every integer outside that
range. -/
theorem c9_int_uuid_spec (n : Int) :
    ((0 ≤ n ∧ n < 16 ^ 16) →
      datasetFunctionInitInt n = .ok (pyFormat016x n.toNat) ∧
      (pyFormat016x n.toNat).data.length = 16 ∧
      (pyFormat016x n.toNat).data.all isLowerHexDigit = true) ∧
    (¬(0 ≤ n ∧ n < 16 ^ 16) →
      ∃ msg, datasetFunctionInitInt n = .error (.assertionError msg)) := by
  constructor
  · intro ⟨h0, h1⟩
    have hA : (16 : Int) ^ 16 = 18446744073709551616 := by norm_num
    have hB : (16 : Nat) ^ 16 = 18446744073709551616 := by norm_num
    rw [hA] at h1
    have hnat : n.toNat < 16 ^ 16 := by rw [hB] ; omega
    obtain ⟨hlen, hall⟩ := pyFormat016x_spec n.toNat hnat
    have hmatch : pyMatchHex16 isLowerHexDigit (pyFormat016x n.toNat) = true := by
      unfold pyMatchHex16
      rw [hlen, hall]
      simp
    unfold datasetFunctionInitInt
    rw [if_pos ⟨h0, by rw [hA] ; omega⟩, if_pos hmatch]
    exact ⟨rfl, hlen, hall⟩
  · intro hneg
    have hA : (16 : Int) ^ 16 = 18446744073709551616 := by norm_num
    by_cases hb : 0 ≤ n ∧ n ≤ 16 ^ 16
    · have heq : n = 16 ^ 16 := by
        rcases hb with ⟨hb0, hb1⟩
        rw [hA] at hb1 ⊢
        by_contra hne
        apply hneg
        refine ⟨hb0, ?_⟩
        rw [hA]
        omega
      subst heq
      exact ⟨"uuid must be a 16 digit hexadecimal string", by decide⟩
    · refine ⟨"uuid must be between 0 and 16 to the 16", ?_⟩
      unfold datasetFunctionInitInt
      rw [if_neg hb]

/-- Witness for claim C9: the theorem applied at the in-range integer 255 and
at the out-of-range integer minus one. -/
theorem c9_int_uuid_spec_witness :
    datasetFunctionInitInt 255 = .ok (pyFormat016x (255 : Int).toNat) ∧
    (∃ msg, datasetFunctionInitInt (-1) = .error (.assertionError msg)) :=
  ⟨((c9_int_uuid_spec 255).1 ⟨by norm_num, by norm_num⟩).1,
   (c9_int_uuid_spec (-1)).2 (by norm_num)⟩

/-- A Derivation Unit of the Lair variant: the directory name computed at
construction time, and the derive logic of the unit modelled as a state
transformer over the store filesystem that may raise. -/
structure DUnit where
  name : String
  run : FS → Except Err Unit × FS

/-- Environment oracle for the two reserved-file writes inside Lair.derive.
The source functions save_dataset_metadata and save_dataset_implementation
contain no failure branch of their own, but the underlying open and dump
calls can raise an OSError from the operating system; a false flag injects
such an environmental failure for the corresponding write. -/
structure WriteEnv where
  metadataOk : Bool
  implementationOk : Bool

/-- Ownership discipline of a unit's derive logic (spec section 3): the unit
writes only inside its own dataset directory, leaving the root, the marker
file, the plain root files and every other directory entry untouched, and it
neither creates nor removes its own directory entry. -/
def WritesOnlyOwn (u : DUnit) : Prop :=
  ∀ st : FS,
    (u.run st).2.rootExists = st.rootExists ∧
    (u.run st).2.configExists = st.configExists ∧
    (u.run st).2.rootFiles = st.rootFiles ∧
    (∀ k, k ≠ u.name → findDir k (u.run st).2.dirs = findDir k st.dirs) ∧
    (findDir u.name (u.run st).2.dirs).isSome = (findDir u.name st.dirs).isSome

namespace Lair

/-- Lair.assert_dataset_missing: assert OK status, then fail if the dataset
already exists. -/
def assertDatasetMissing (n : String) (s : FS) : Except Err Unit :=
  match assertOk s with
  | .error e => .error e
  | .ok _ =>
    if datasetExists s n then .error (.assertionError "Dataset already exists")
    else .ok ()

/-- Lair.assert_dataset_exists: assert OK status, then fail if the dataset
does not exist. -/
def assertDatasetExists (n : String) (s : FS) : Except Err Unit :=
  match assertOk s with
  | .error e => .error e
  | .ok _ =>
    if datasetExists s n then .ok ()
    else .error (.assertionError "Dataset does not exist")

/-- Lair.make_dataset_dir: assert the dataset missing, then mkdir without
exist_ok; a plain file already occupying the path makes mkdir raise
FileExistsError, otherwise the new empty directory is created. -/
def makeDatasetDir (n : String) (s : FS) : Except Err FS :=
  match assertDatasetMissing n s with
  | .error e => .error e
  | .ok _ =>
    if n ∈ s.rootFiles then .error (.fileExistsError "dataset path already exists")
    else .ok { s with dirs := s.dirs ++ [(n, [])] }

/-- Lair.save_dataset_metadata: dump the environment snapshot to the reserved
metadata file inside the dataset directory; an absent directory makes the
open call raise, and the environment can inject a write failure. -/
def saveDatasetMetadata (env : WriteEnv) (n : String) (s : FS) : Except Err FS :=
  if env.metadataOk = false then .error (.osError "metadata write failed")
  else if (findDir n s.dirs).isSome then
    .ok { s with dirs := setDirFiles n (insertFile "__metadata__.json") s.dirs }
  else .error (.fileNotFoundError "dataset directory is absent")

/-- Lair.save_dataset_implementation: dump the serialized unit definition to
the reserved dataset file inside the dataset directory. -/
def saveDatasetImplementation (env : WriteEnv) (n : String) (s : FS) : Except Err FS :=
  if env.implementationOk = false then .error (.osError "implementation write failed")
  else if (findDir n s.dirs).isSome then
    .ok { s with dirs := setDirFiles n (insertFile "__dataset__.pkl") s.dirs }
  else .error (.fileNotFoundError "dataset directory is absent")

/-- Lair.delete_from_store: assert OK status, then rmtree the dataset path;
rmtree raises when the path is absent or is a plain file. -/
def deleteFromStore (n : String) (s : FS) : Except Err Unit × FS :=
  match assertOk s with
  | .error e => (.error e, s)
  | .ok _ =>
    if (findDir n s.dirs).isSome then (.ok (), { s with dirs := removeDir n s.dirs })
    else if n ∈ s.rootFiles then (.error (.osError "path is not a directory"), s)
    else (.error (.fileNotFoundError "dataset path is absent"), s)

/-- Lair.derive, the commit protocol: assert OK, assert the argument is a
Dataset (carried by typing here), assert missing, create the directory,
write the metadata snapshot, write the definition copy, re-assert existence,
then run the unit's own derive logic; only an exception from that final step
is caught, answered by delete_from_store, and re-raised, and an exception
raised inside the cleanup itself replaces the original one. -/
def derive (env : WriteEnv) (u : DUnit) (s : FS) : Except Err Unit × FS :=
  match assertOk s with
  | .error e => (.error e, s)
  | .ok _ =>
    match assertDatasetMissing u.name s with
    | .error e => (.error e, s)
    | .ok _ =>
      match makeDatasetDir u.name s with
      | .error e => (.error e, s)
      | .ok s1 =>
        match saveDatasetMetadata env u.name s1 with
        | .error e => (.error e, s1)
        | .ok s2 =>
          match saveDatasetImplementation env u.name s2 with
          | .error e => (.error e, s2)
          | .ok s3 =>
            match assertDatasetExists u.name s3 with
            | .error e => (.error e, s3)
            | .ok _ =>
              match u.run s3 with
              | (.ok _, s4) => (.ok (), s4)
              | (.error e, s4) =>
                match deleteFromStore u.name s4 with
                | (.ok _, s5) => (.error e, s5)
                | (.error e2, s5) => (.error e2, s5)

/-- Lair.safe_derive: assert OK; an existing dataset is left alone without
error unless overwrite is requested, in which case it is deleted first; an
absent dataset is derived. -/
def safeDerive (env : WriteEnv) (u : DUnit) (overwrite : Bool) (s : FS) :
    Except Err Unit × FS :=
  match assertOk s with
  | .error e => (.error e, s)
  | .ok _ =>
    if datasetExists s u.name && !overwrite then (.ok (), s)
    else if datasetExists s u.name && overwrite then
      match deleteFromStore u.name s with
      | (.error e, s1) => (.error e, s1)
      | (.ok _, s1) => derive env u s1
    else derive env u s

/-- Lair.get_dataset_filepaths: assert OK and existence, then map every file
name in the dataset directory except the two reserved artifact names to its
path below the dataset directory. -/
def getDatasetFilepaths (u : DUnit) (s : FS) : Except Err (List (String × String)) :=
  match assertOk s with
  | .error e => .error e
  | .ok _ =>
    match assertDatasetExists u.name s with
    | .error e => .error e
    | .ok _ =>
      .ok (((findDir u.name s.dirs).getD []).filterMap (fun f =>
        if f = "__metadata__.json" ∨ f = "__dataset__.pkl" then none
        else some (f, u.name ++ "/" ++ f)))

/-- A dataset directory counts as empty for the cleanup sweep when its file
name set minus the two reserved artifact names is empty. -/
def isEmptyDataset (fs : List String) : Bool :=
  fs.all (fun f => f == "__dataset__.pkl" || f == "__metadata__.json")

/-- One pass of the cleanup sweep over the subdirectory entries: the first
component collects the directories a dry run reports, the second component
is the list of entries remaining on disk afterwards. -/
def sweep (dryRun : Bool) : List (String × List String) →
    List String × List (String × List String)
  | [] => ([], [])
  | (n, fs) :: rest =>
    let r := sweep dryRun rest
    if isEmptyDataset fs then
      if dryRun then (n :: r.1, (n, fs) :: r.2) else (r.1, r.2)
    else (r.1, (n, fs) :: r.2)

/-- Lair.delete_all_empty_datasets_from_store: assert OK, then scan every
immediate subdirectory of the root (plain entries are skipped by the
directory check); a subdirectory whose file set minus the two reserved names
is empty is reported in a dry run and deleted in a live run. -/
def deleteAllEmptyDatasetsFromStore (dryRun : Bool) (s : FS) :
    Except Err (List String) × FS :=
  match assertOk s with
  | .error e => (.error e, s)
  | .ok _ => (.ok (sweep dryRun s.dirs).1, { s with dirs := (sweep dryRun s.dirs).2 })

end Lair

theorem assertOk_ok_inv (s : FS) (v : Unit) (h : assertOk s = .ok v) :
    statusFS s = .ok := by
  unfold assertOk at h
  split at h
  · assumption
  · cases h

theorem assertDatasetExists_ok_inv (n : String) (s : FS) (v : Unit)
    (h : Lair.assertDatasetExists n s = .ok v) :
    statusFS s = .ok ∧ datasetExists s n = true := by
  unfold Lair.assertDatasetExists at h
  split at h
  · cases h
  · rename_i w heq
    refine ⟨assertOk_ok_inv s w heq, ?_⟩
    split at h
    · assumption
    · cases h

theorem assertDatasetMissing_of (n : String) (s : FS)
    (hok : statusFS s = .ok) (hmiss : datasetExists s n = false) :
    Lair.assertDatasetMissing n s = .ok () := by
  unfold Lair.assertDatasetMissing
  rw [assertOk_of_ok s hok]
  dsimp only
  simp [hmiss]

theorem assertDatasetExists_of (n : String) (s : FS)
    (hok : statusFS s = .ok) (hex : datasetExists s n = true) :
    Lair.assertDatasetExists n s = .ok () := by
  unfold Lair.assertDatasetExists
  rw [assertOk_of_ok s hok]
  dsimp only
  simp [hex]

/-- An OK store with an empty root. -/
def fsOkEmpty : FS := ⟨true, true, [], []⟩

/-- A unit whose own derive logic always succeeds without touching the
filesystem. -/
def unitNoop : DUnit := ⟨"0000000000000000", fun st => (.ok (), st)⟩

/-- A unit whose own derive logic always raises without touching the
filesystem. -/
def unitBoom : DUnit := ⟨"00000000000000aa", fun st => (.error (.unitError "boom"), st)⟩

/-- Claim C1 counterexample: with the store OK and the dataset absent, an
exception injected into the metadata write — a step after the dataset
directory has been created — propagates out of Lair.derive while the dataset
directory remains on disk, so the claimed rollback for every step after
directory creation does not hold. -/
theorem c1_counterexample_metadata_failure :
    (Lair.derive ⟨false, true⟩ unitNoop fsOkEmpty).1 = .error (.osError "metadata write failed") ∧
    datasetExists (Lair.derive ⟨false, true⟩ unitNoop fsOkEmpty).2 "0000000000000000" = true :=
  ⟨rfl, rfl⟩

/-- Claim C1 (amended): the rollback of Lair.derive covers exactly the
unit's own derive step. For an OK store, an absent dataset path, a
well-scoped unit whose derive logic always raises a fixed error, and
successful reserved writes, Lair.derive re-raises that error and removes the
dataset directory entirely; with a failing metadata write instead, the error
propagates and the partially created dataset directory remains. -/
theorem c1_derive_rollback (u : DUnit) (s : FS) (e : Err)
    (hok : statusFS s = .ok)
    (hmiss : datasetExists s u.name = false)
    (hfile : u.name ∉ s.rootFiles)
    (hwo : WritesOnlyOwn u)
    (hrun : ∀ st, (u.run st).1 = .error e) :
    ((Lair.derive ⟨true, true⟩ u s).1 = .error e ∧
     findDir u.name (Lair.derive ⟨true, true⟩ u s).2.dirs = none) ∧
    ((Lair.derive ⟨false, true⟩ u s).1 = .error (.osError "metadata write failed") ∧
     datasetExists (Lair.derive ⟨false, true⟩ u s).2 u.name = true) := by
  have hnone : findDir u.name s.dirs = none := by
    cases hfd : findDir u.name s.dirs with
    | none => rfl
    | some v =>
      unfold datasetExists at hmiss
      rw [hfd] at hmiss
      simp at hmiss
  have hmok : Lair.assertDatasetMissing u.name s = .ok () :=
    assertDatasetMissing_of u.name s hok hmiss
  have hmk : Lair.makeDatasetDir u.name s = .ok { s with dirs := s.dirs ++ [(u.name, [])] } := by
    unfold Lair.makeDatasetDir
    rw [hmok]
    dsimp only
    simp [hfile]
  have hfd1 : findDir u.name (s.dirs ++ [(u.name, [])]) = some [] :=
    findDir_append_self u.name [] s.dirs hnone
  constructor
  · -- both reserved writes succeed, the unit itself raises, rollback happens
    have hmeta : Lair.saveDatasetMetadata ⟨true, true⟩ u.name
        { s with dirs := s.dirs ++ [(u.name, [])] } =
        .ok { s with dirs := (setDirFiles u.name (insertFile "__metadata__.json")
          (s.dirs ++ [(u.name, [])])) } := by
      unfold Lair.saveDatasetMetadata
      simp [hfd1]
    have hfd2 : findDir u.name (setDirFiles u.name (insertFile "__metadata__.json")
        (s.dirs ++ [(u.name, [])])) = some (insertFile "__metadata__.json" []) := by
      rw [findDir_setDirFiles, if_pos rfl, hfd1]
      rfl
    have himpl : Lair.saveDatasetImplementation ⟨true, true⟩ u.name
        { s with dirs := (setDirFiles u.name (insertFile "__metadata__.json")
          (s.dirs ++ [(u.name, [])])) } =
        .ok { s with dirs := (setDirFiles u.name (insertFile "__dataset__.pkl")
          (setDirFiles u.name (insertFile "__metadata__.json") (s.dirs ++ [(u.name, [])]))) } := by
      unfold Lair.saveDatasetImplementation
      simp [hfd2]
    have hfd3 : findDir u.name (setDirFiles u.name (insertFile "__dataset__.pkl")
        (setDirFiles u.name (insertFile "__metadata__.json") (s.dirs ++ [(u.name, [])]))) =
        some (insertFile "__dataset__.pkl" (insertFile "__metadata__.json" [])) := by
      rw [findDir_setDirFiles, if_pos rfl, hfd2]
      rfl
    set s3 : FS := { s with dirs := (setDirFiles u.name (insertFile "__dataset__.pkl")
      (setDirFiles u.name (insertFile "__metadata__.json") (s.dirs ++ [(u.name, [])]))) } with hs3
    have hok3 : statusFS s3 = .ok := by
      rw [hs3]
      exact hok
    have hexists3 : Lair.assertDatasetExists u.name s3 = .ok () := by
      apply assertDatasetExists_of u.name s3 hok3
      unfold datasetExists
      rw [hs3]
      dsimp only
      rw [hfd3]
      rfl
    obtain ⟨hroot4, hconf4, hrf4, hothers4, hself4⟩ := hwo s3
    rcases hu : u.run s3 with ⟨r4, s4⟩
    have hr4 : r4 = .error e := by
      have := hrun s3
      rw [hu] at this
      exact this
    subst hr4
    rw [hu] at hroot4 hconf4 hrf4 hothers4 hself4
    obtain ⟨hre, hce⟩ := (statusFS_ok_iff s).mp hok
    have hok4 : statusFS s4 = .ok := by
      apply (statusFS_ok_iff s4).mpr
      constructor
      · rw [hroot4]
        exact hre
      · rw [hconf4]
        exact hce
    have hsome4 : (findDir u.name s4.dirs).isSome = true := by
      rw [hself4, hs3]
      dsimp only
      rw [hfd3]
      rfl
    have hdel : Lair.deleteFromStore u.name s4 =
        (.ok (), { s4 with dirs := removeDir u.name s4.dirs }) := by
      unfold Lair.deleteFromStore
      rw [assertOk_of_ok s4 hok4]
      dsimp only
      simp [hsome4]
    have hmain : Lair.derive ⟨true, true⟩ u s =
        (.error e, { s4 with dirs := removeDir u.name s4.dirs }) := by
      unfold Lair.derive
      rw [assertOk_of_ok s hok]
      dsimp only
      rw [hmok]
      dsimp only
      rw [hmk]
      dsimp only
      rw [hmeta]
      dsimp only
      rw [himpl]
      dsimp only
      rw [hexists3]
      dsimp only
      rw [hu]
      dsimp only
      rw [hdel]
    rw [hmain]
    constructor
    · rfl
    · show findDir u.name (removeDir u.name s4.dirs) = none
      rw [findDir_removeDir, if_pos rfl]
  · -- the metadata write fails: the error propagates and the directory stays
    have hmain2 : Lair.derive ⟨false, true⟩ u s =
        (.error (.osError "metadata write failed"), { s with dirs := s.dirs ++ [(u.name, [])] }) := by
      unfold Lair.derive
      rw [assertOk_of_ok s hok]
      dsimp only
      rw [hmok]
      dsimp only
      rw [hmk]
      dsimp only
      rw [show Lair.saveDatasetMetadata ⟨false, true⟩ u.name
          { s with dirs := s.dirs ++ [(u.name, [])] } =
          .error (.osError "metadata write failed") from rfl]
    rw [hmain2]
    constructor
    · rfl
    · show (findDir u.name (s.dirs ++ [(u.name, [])])).isSome = true
      rw [hfd1]
      rfl

/-- Witness for claim C1: the amended rollback theorem applied to a concrete
always-failing unit on a concrete OK store. -/
theorem c1_derive_rollback_witness :
    ((Lair.derive ⟨true, true⟩ unitBoom fsOkEmpty).1 = .error (.unitError "boom") ∧
     findDir unitBoom.name (Lair.derive ⟨true, true⟩ unitBoom fsOkEmpty).2.dirs = none) ∧
    ((Lair.derive ⟨false, true⟩ unitBoom fsOkEmpty).1 = .error (.osError "metadata write failed") ∧
     datasetExists (Lair.derive ⟨false, true⟩ unitBoom fsOkEmpty).2 unitBoom.name = true) :=
  c1_derive_rollback unitBoom fsOkEmpty (.unitError "boom") rfl rfl
    (by simp [fsOkEmpty])
    (fun st => ⟨rfl, rfl, rfl, fun k _ => rfl, rfl⟩)
    (fun st => rfl)

theorem derive_ok_post (env : WriteEnv) (u : DUnit) (s s1 : FS)
    (hwo : WritesOnlyOwn u) (h : Lair.derive env u s = (.ok (), s1)) :
    statusFS s1 = .ok ∧ datasetExists s1 u.name = true := by
  unfold Lair.derive at h
  split at h
  · simp at h
  · split at h
    · simp at h
    · split at h
      · simp at h
      · split at h
        · simp at h
        · split at h
          · simp at h
          · rename_i s3' hE
            split at h
            · simp at h
            · rename_i w hF
              obtain ⟨hok3, hex3⟩ := assertDatasetExists_ok_inv u.name s3' w hF
              split at h
              · rename_i v s4 hG
                obtain ⟨hroot4, hconf4, hrf4, hothers4, hself4⟩ := hwo s3'
                rw [hG] at hroot4 hconf4 hself4
                simp only [Prod.mk.injEq] at h
                obtain ⟨-, hs⟩ := h
                subst hs
                obtain ⟨hre, hce⟩ := (statusFS_ok_iff s3').mp hok3
                constructor
                · apply (statusFS_ok_iff _).mpr
                  exact ⟨by rw [hroot4] ; exact hre, by rw [hconf4] ; exact hce⟩
                · unfold datasetExists at hex3 ⊢
                  rw [hself4]
                  exact hex3
              · split at h
                · simp at h
                · simp at h

/-- Claim C4: with the store OK, safe_derive without overwrite is a no-op on
an already existing dataset — it returns without error and leaves the state
unchanged — and for a well-scoped unit any successful safe_derive call is
idempotent: a second call returns without error and leaves the state of the
first call untouched. -/
theorem c4_safe_derive_idempotent (env : WriteEnv) (u : DUnit) (s s1 : FS)
    (hok : statusFS s = .ok) (hwo : WritesOnlyOwn u) :
    (datasetExists s u.name = true → Lair.safeDerive env u false s = (.ok (), s)) ∧
    (Lair.safeDerive env u false s = (.ok (), s1) →
      Lair.safeDerive env u false s1 = (.ok (), s1)) := by
  constructor
  · intro hex
    unfold Lair.safeDerive
    rw [assertOk_of_ok s hok]
    dsimp only
    simp [hex]
  · intro hres
    unfold Lair.safeDerive at hres
    rw [assertOk_of_ok s hok] at hres
    dsimp only at hres
    by_cases hex : datasetExists s u.name = true
    · rw [if_pos (by simp [hex])] at hres
      simp only [Prod.mk.injEq] at hres
      obtain ⟨-, hs⟩ := hres
      subst hs
      unfold Lair.safeDerive
      rw [assertOk_of_ok s hok]
      dsimp only
      simp [hex]
    · rw [if_neg (by simp [hex]), if_neg (by simp [hex])] at hres
      obtain ⟨hok1, hex1⟩ := derive_ok_post env u s s1 hwo hres
      unfold Lair.safeDerive
      rw [assertOk_of_ok s1 hok1]
      dsimp only
      simp [hex1]

/-- An OK store holding one dataset directory that already exists. -/
def fsWithUnitCC : FS := ⟨true, true, [("00000000000000cc", [])], []⟩

/-- A unit named like the existing directory whose derive logic is the
identity. -/
def unitCC : DUnit := ⟨"00000000000000cc", fun st => (.ok (), st)⟩

/-- Witness for claim C4: the idempotence theorem applied to a concrete unit
whose dataset already exists in a concrete OK store. -/
theorem c4_safe_derive_idempotent_witness :
    Lair.safeDerive ⟨true, true⟩ unitCC false fsWithUnitCC = (.ok (), fsWithUnitCC) :=
  (c4_safe_derive_idempotent ⟨true, true⟩ unitCC fsWithUnitCC fsWithUnitCC rfl
    (fun st => ⟨rfl, rfl, rfl, fun k _ => rfl, rfl⟩)).1 (by decide)

/-- Claim C5: on an OK store with an existing dataset, get_dataset_filepaths
returns a mapping whose keys are exactly the files of the dataset directory
other than the two reserved artifact names — in particular the two reserved
names never appear, whatever the unit wrote — and every entry maps the file
name to its path below the dataset directory. -/
theorem c5_get_dataset_filepaths_spec (u : DUnit) (s : FS)
    (hok : statusFS s = .ok) (hex : datasetExists s u.name = true) :
    ∃ m, Lair.getDatasetFilepaths u s = .ok m ∧
      (∀ f : String, (∃ p, (f, p) ∈ m) ↔
        (f ∈ (findDir u.name s.dirs).getD [] ∧
          f ≠ "__metadata__.json" ∧ f ≠ "__dataset__.pkl")) ∧
      (∀ f p, (f, p) ∈ m → p = u.name ++ "/" ++ f) := by
  have hval : Lair.getDatasetFilepaths u s =
      .ok (((findDir u.name s.dirs).getD []).filterMap (fun f =>
        if f = "__metadata__.json" ∨ f = "__dataset__.pkl" then none
        else some (f, u.name ++ "/" ++ f))) := by
    unfold Lair.getDatasetFilepaths
    rw [assertOk_of_ok s hok]
    dsimp only
    rw [assertDatasetExists_of u.name s hok hex]
  refine ⟨_, hval, ?_, ?_⟩
  · intro f
    constructor
    · rintro ⟨p, hp⟩
      rw [List.mem_filterMap] at hp
      obtain ⟨a, ha, hfa⟩ := hp
      by_cases hres : a = "__metadata__.json" ∨ a = "__dataset__.pkl"
      · rw [if_pos hres] at hfa
        cases hfa
      · rw [if_neg hres] at hfa
        rw [Option.some.injEq, Prod.mk.injEq] at hfa
        obtain ⟨haf, -⟩ := hfa
        subst haf
        push_neg at hres
        exact ⟨ha, hres.1, hres.2⟩
    · rintro ⟨hmem, h1, h2⟩
      refine ⟨u.name ++ "/" ++ f, ?_⟩
      rw [List.mem_filterMap]
      refine ⟨f, hmem, ?_⟩
      rw [if_neg (by push_neg ; exact ⟨h1, h2⟩)]
  · intro f p hp
    rw [List.mem_filterMap] at hp
    obtain ⟨a, ha, hfa⟩ := hp
    by_cases hres : a = "__metadata__.json" ∨ a = "__dataset__.pkl"
    · rw [if_pos hres] at hfa
      cases hfa
    · rw [if_neg hres] at hfa
      rw [Option.some.injEq, Prod.mk.injEq] at hfa
      obtain ⟨haf, hap⟩ := hfa
      subst haf
      exact hap.symm

/-- An OK store with one dataset directory containing one real output file
alongside the two reserved artifact files. -/
def fsWithUnitBB : FS :=
  ⟨true, true,
    [("00000000000000bb", ["x.dat", "__metadata__.json", "__dataset__.pkl"])], []⟩

/-- The unit owning that directory. -/
def unitBB : DUnit := ⟨"00000000000000bb", fun st => (.ok (), st)⟩

/-- Witness for claim C5: the reserved-file exclusion theorem applied to a
concrete store whose dataset directory holds a real file and both reserved
files. -/
theorem c5_get_dataset_filepaths_spec_witness :
    ∃ m, Lair.getDatasetFilepaths unitBB fsWithUnitBB = .ok m ∧
      (∀ f : String, (∃ p, (f, p) ∈ m) ↔
        (f ∈ (findDir unitBB.name fsWithUnitBB.dirs).getD [] ∧
          f ≠ "__metadata__.json" ∧ f ≠ "__dataset__.pkl")) ∧
      (∀ f p, (f, p) ∈ m → p = unitBB.name ++ "/" ++ f) :=
  c5_get_dataset_filepaths_spec unitBB fsWithUnitBB rfl (by decide)

theorem sweep_dry (l : List (String × List String)) :
    Lair.sweep true l = ((l.filter (fun p => Lair.isEmptyDataset p.2)).map Prod.fst, l) := by
  induction l with
  | nil => rfl
  | cons p rest ih =>
    obtain ⟨n, fs⟩ := p
    simp only [Lair.sweep, ih, List.filter_cons]
    by_cases he : Lair.isEmptyDataset fs = true
    · simp [he]
    · simp [he]

theorem sweep_live (l : List (String × List String)) :
    Lair.sweep false l = ([], l.filter (fun p => !Lair.isEmptyDataset p.2)) := by
  induction l with
  | nil => rfl
  | cons p rest ih =>
    obtain ⟨n, fs⟩ := p
    simp only [Lair.sweep, ih, List.filter_cons]
    by_cases he : Lair.isEmptyDataset fs = true
    · simp [he]
    · simp [he]

/-- Claim C6: on an OK store, the live cleanup sweep keeps exactly the
subdirectories whose file set minus the two reserved names is non-empty and
removes the rest, while a dry run changes nothing on disk and merely reports
the names of the empty dataset directories. -/
theorem c6_delete_all_empty_spec (s : FS) (hok : statusFS s = .ok) :
    Lair.deleteAllEmptyDatasetsFromStore false s =
      (.ok [], { s with dirs := s.dirs.filter (fun p => !Lair.isEmptyDataset p.2) }) ∧
    Lair.deleteAllEmptyDatasetsFromStore true s =
      (.ok ((s.dirs.filter (fun p => Lair.isEmptyDataset p.2)).map Prod.fst), s) := by
  constructor
  · unfold Lair.deleteAllEmptyDatasetsFromStore
    rw [assertOk_of_ok s hok]
    dsimp only
    rw [sweep_live]
  · unfold Lair.deleteAllEmptyDatasetsFromStore
    rw [assertOk_of_ok s hok]
    dsimp only
    rw [sweep_dry]

/-- An OK store with one empty dataset directory (only the two reserved
files) and one directory holding a real output. -/
def fsSweep : FS :=
  ⟨true, true,
    [("00000000000000e1", ["__dataset__.pkl", "__metadata__.json"]),
     ("00000000000000e2", ["__metadata__.json", "data.csv"])], []⟩

/-- Witness for claim C6: the sweep theorem applied to a concrete store with
one empty and one non-empty dataset directory. -/
theorem c6_delete_all_empty_spec_witness :
    Lair.deleteAllEmptyDatasetsFromStore false fsSweep =
      (.ok [], { fsSweep with dirs := fsSweep.dirs.filter (fun p => !Lair.isEmptyDataset p.2) }) ∧
    Lair.deleteAllEmptyDatasetsFromStore true fsSweep =
      (.ok ((fsSweep.dirs.filter (fun p => Lair.isEmptyDataset p.2)).map Prod.fst), fsSweep) :=
  c6_delete_all_empty_spec fsSweep rfl

/-- os.listdir of the root: the marker file, the subdirectory names and the
plain files. -/
def rootEntries (s : FS) : List String :=
  (if s.configExists then ["__config__.json"] else []) ++ s.dirs.map Prod.fst ++ s.rootFiles

/-- shutil.rmtree of the root path: removes the whole tree, raising when the
root is absent. -/
def rmtreeRoot (s : FS) : Except Err Unit × FS :=
  if s.rootExists then (.ok (), ⟨false, false, [], []⟩)
  else (.error (.fileNotFoundError "store root is absent"), s)

/-- Lair.delete from the package init module: without force, an OK store
with any entry refuses with an IOError, an absent store and a malformed
store refuse with their own IOError, and only an OK empty root reaches
rmtree; with force, rmtree runs unconditionally. This variant spells
os.listdir correctly. -/
def Lair.delete (force : Bool) (s : FS) : Except Err Unit × FS :=
  if force = false then
    match statusFS s with
    | .ok =>
      if (rootEntries s).isEmpty = false then
        (.error (.ioError "Store has elements in it"), s)
      else rmtreeRoot s
    | .notExist => (.error (.ioError "Store does not exist"), s)
    | _ => (.error (.ioError "File the path of store points to is not a store"), s)
  else rmtreeRoot s

/-- A DatasetFunction of the function-based Store variant: the validated
uuid; the default value of each parameter of the callable's signature, where
some uuid stands for a default that is itself a DatasetFunction (only its
uuid is ever consulted on the paths the embedding covers) and none stands
for a default of any other type; and the outcome of calling the function —
an exception message, or the ordered outputs, each given with its final file
name and whether the serializer supports its value. -/
structure DFun where
  uuid : String
  deps : List (Option String)
  call : Except String (List (String × Bool))

namespace Store

/-- Store.delete from store.py: same guard structure as the Lair variant,
but the OK branch evaluates os.listdr — an attribute that does not exist in
the os module — so an AttributeError is raised there before any emptiness
check can happen, and the fall-through rmtree is unreachable without
force. -/
def delete (force : Bool) (s : FS) : Except Err Unit × FS :=
  if force = false then
    match statusFS s with
    | .ok => (.error (.attributeError "module os has no attribute listdr"), s)
    | .notExist => (.error (.ioError "Store does not exist"), s)
    | _ => (.error (.ioError "File the path of store points to is not a store"), s)
  else rmtreeRoot s

/-- Store._resolve_dependencies over the defaults of the signature
parameters, in declaration order: a default that is not a DatasetFunction
raises ValueError; a dependency whose dataset already exists is skipped with
a log line; an absent dependency reaches self.save_to_store, a method that
is not defined anywhere on Store, so the attribute lookup raises
AttributeError before any recursive call can happen. -/
def resolveDependencies (s : FS) : List (Option String) → Except Err Unit
  | [] => .ok ()
  | none :: _ => .error (.valueError "dependency is not a dataset function")
  | some d :: rest =>
    if datasetExists s d then resolveDependencies s rest
    else .error (.attributeError "Store object has no attribute save_to_store")

/-- Store._initialize_temporary_dataset_directory: an existing temporary
directory is removed first, then an empty one is created under the root. -/
def initTmpDir (s : FS) : FS :=
  { s with dirs := (removeDir "__tmp_dataset__" s.dirs ++ [("__tmp_dataset__", [])]) }

/-- Write one file into the temporary dataset directory. -/
def writeTmpFile (fn : String) (s : FS) : FS :=
  { s with dirs := setDirFiles "__tmp_dataset__" (insertFile fn) s.dirs }

/-- Store._save_datasets_to_temporary_dataset_directory: serialize each
output in order into the temporary directory; an output whose value the
serializer does not support makes save_dataset_file raise at that point. -/
def saveOutputs : List (String × Bool) → FS → Except Err Unit × FS
  | [], s => (.ok (), s)
  | (fn, okb) :: rest, s =>
    if okb then saveOutputs rest (writeTmpFile fn s)
    else (.error (.ioError "do not know how to save this dataset value"), s)

/-- Store._replace_with_temporary_dataset_directory: rmtree the target
dataset directory ignoring errors, then move the temporary directory onto
the target path. -/
def replaceWithTmp (uuid : String) (s : FS) : FS :=
  { s with dirs := (removeDir "__tmp_dataset__" (removeDir uuid s.dirs)
      ++ [(uuid, (findDir "__tmp_dataset__" s.dirs).getD [])]) }

/-- Store.save: assert OK; refuse an existing target unless overwrite is
requested; resolve the declared dependencies; initialize the temporary
directory and write the metadata snapshot into it; call the dataset
function; serialize every output into the temporary directory; only then
replace the target directory with the temporary one. -/
def save (f : DFun) (overwrite : Bool) (s : FS) : Except Err Unit × FS :=
  match assertOk s with
  | .error e => (.error e, s)
  | .ok _ =>
    if datasetExists s f.uuid && !overwrite then
      (.error (.fileExistsError "A dataset with this uuid already exists"), s)
    else
      match resolveDependencies s f.deps with
      | .error e => (.error e, s)
      | .ok _ =>
        match f.call with
        | .error m =>
          (.error (.unitError m), writeTmpFile "__metadata__.json" (initTmpDir s))
        | .ok outs =>
          match saveOutputs outs (writeTmpFile "__metadata__.json" (initTmpDir s)) with
          | (.error e, s2) => (.error e, s2)
          | (.ok _, s2) => (.ok (), replaceWithTmp f.uuid s2)

end Store

/-- Claim C7: the delete guard behaves as described in the Lair variant — an
OK store with contents refuses with the has-contents IOError, absent and
malformed stores refuse with their IOError, and force removes the tree — but
the Store variant of store.py contradicts the claim: its OK branch evaluates
the nonexistent os.listdr, so delete without force on any OK store raises
AttributeError instead, and an OK empty root is never removed either. -/
theorem c7_store_delete_listdr_bug :
    Lair.delete false ⟨true, true, [("00000000000000dd", ["x.pkl"])], []⟩ =
      (.error (.ioError "Store has elements in it"),
        ⟨true, true, [("00000000000000dd", ["x.pkl"])], []⟩) ∧
    Lair.delete true ⟨true, true, [("00000000000000dd", ["x.pkl"])], []⟩ =
      (.ok (), ⟨false, false, [], []⟩) ∧
    Store.delete false ⟨true, true, [("00000000000000dd", ["x.pkl"])], []⟩ =
      (.error (.attributeError "module os has no attribute listdr"),
        ⟨true, true, [("00000000000000dd", ["x.pkl"])], []⟩) ∧
    Store.delete false ⟨true, true, [], []⟩ =
      (.error (.attributeError "module os has no attribute listdr"),
        ⟨true, true, [], []⟩) ∧
    Store.delete true ⟨true, true, [], []⟩ = (.ok (), ⟨false, false, [], []⟩) :=
  ⟨rfl, rfl, rfl, rfl, rfl⟩

/-- The dependent dataset function of the repository test for dependency
resolution: it declares the function with uuid zero as its default-valued
dependency and produces one pickled output. -/
def newDataset : DFun :=
  ⟨"0000000000000001", [some "0000000000000000"], .ok [("test-new.pkl", true)]⟩

/-- Claim C2: saving a unit whose declared dependency is absent from the
store should derive the dependency recursively first; instead the code path
reaches self.save_to_store, a method never defined on Store, so the save
raises AttributeError, the store is unchanged and the dependency dataset
still does not exist afterwards. -/
theorem c2_save_missing_dependency_attribute_error :
    Store.save newDataset false fsOkEmpty =
      (.error (.attributeError "Store object has no attribute save_to_store"), fsOkEmpty) ∧
    datasetExists fsOkEmpty "0000000000000000" = false :=
  ⟨rfl, rfl⟩

theorem findDir_append_single_ne (k n : String) (v : List String)
    (l : List (String × List String)) (h : ¬ k = n) :
    findDir k (l ++ [(n, v)]) = findDir k l := by
  induction l with
  | nil =>
    simp only [List.nil_append, findDir]
    rw [if_neg (fun hh => h hh.symm)]
  | cons p rest ih =>
    obtain ⟨m, fs⟩ := p
    simp only [List.cons_append, findDir]
    by_cases hmk : m = k
    · rw [if_pos hmk, if_pos hmk]
    · rw [if_neg hmk, if_neg hmk]
      exact ih

theorem findDir_writeTmpFile (k fn : String) (s : FS) (hk : ¬ k = "__tmp_dataset__") :
    findDir k (Store.writeTmpFile fn s).dirs = findDir k s.dirs := by
  unfold Store.writeTmpFile
  dsimp only
  rw [findDir_setDirFiles, if_neg hk]

theorem findDir_initTmpDir (k : String) (s : FS) (hk : ¬ k = "__tmp_dataset__") :
    findDir k (Store.initTmpDir s).dirs = findDir k s.dirs := by
  unfold Store.initTmpDir
  dsimp only
  rw [findDir_append_single_ne _ _ _ _ hk, findDir_removeDir, if_neg hk]

theorem saveOutputs_preserves (outs : List (String × Bool)) (s : FS) (k : String)
    (hk : ¬ k = "__tmp_dataset__") :
    findDir k (Store.saveOutputs outs s).2.dirs = findDir k s.dirs := by
  induction outs generalizing s with
  | nil => rfl
  | cons p rest ih =>
    obtain ⟨fn, okb⟩ := p
    simp only [Store.saveOutputs]
    by_cases hb : okb = true
    · rw [if_pos hb]
      rw [ih (Store.writeTmpFile fn s), findDir_writeTmpFile k fn s hk]
    · rw [if_neg hb]

theorem saveOutputs_preserves_meta (outs : List (String × Bool)) (s : FS) :
    (Store.saveOutputs outs s).2.rootExists = s.rootExists ∧
    (Store.saveOutputs outs s).2.configExists = s.configExists ∧
    (Store.saveOutputs outs s).2.rootFiles = s.rootFiles := by
  induction outs generalizing s with
  | nil => exact ⟨rfl, rfl, rfl⟩
  | cons p rest ih =>
    obtain ⟨fn, okb⟩ := p
    simp only [Store.saveOutputs]
    by_cases hb : okb = true
    · rw [if_pos hb]
      obtain ⟨h2, h3, h4⟩ := ih (Store.writeTmpFile fn s)
      exact ⟨by rw [h2] ; rfl, by rw [h3] ; rfl, by rw [h4] ; rfl⟩
    · rw [if_neg hb]
      exact ⟨rfl, rfl, rfl⟩

/-- Claim C10: Store.save stages the metadata snapshot and every serialized
output in the temporary directory and replaces the target only as its final
step, so whenever save with overwrite raises — in particular when the
dataset function's own call or the serialization of one of its outputs
raises — the pre-existing target directory and every other non-temporary
entry of the store are exactly as before; only the temporary directory may
differ. -/
theorem c10_save_staging_atomicity (s : FS) (f : DFun) (e : Err)
    (hres : (Store.save f true s).1 = .error e) :
    (∀ k, ¬ k = "__tmp_dataset__" →
      findDir k (Store.save f true s).2.dirs = findDir k s.dirs) ∧
    (Store.save f true s).2.rootExists = s.rootExists ∧
    (Store.save f true s).2.configExists = s.configExists ∧
    (Store.save f true s).2.rootFiles = s.rootFiles := by
  unfold Store.save at hres ⊢
  split at hres
  · exact ⟨fun k hk => rfl, rfl, rfl, rfl⟩
  · split at hres
    · rename_i hcond
      rw [if_pos hcond]
      exact ⟨fun k hk => rfl, rfl, rfl, rfl⟩
    · rename_i hcond
      rw [if_neg hcond]
      split at hres
      · exact ⟨fun k hk => rfl, rfl, rfl, rfl⟩
      · split at hres
        · refine ⟨fun k hk => ?_, rfl, rfl, rfl⟩
          show findDir k (Store.writeTmpFile "__metadata__.json" (Store.initTmpDir s)).dirs =
            findDir k s.dirs
          rw [findDir_writeTmpFile k _ _ hk, findDir_initTmpDir k s hk]
        · rename_i outs hC
          split at hres
          · rename_i e3 s2 hD
            have hs2 : (Store.saveOutputs outs
                (Store.writeTmpFile "__metadata__.json" (Store.initTmpDir s))).2 = s2 := by
              rw [hD]
            refine ⟨fun k hk => ?_, ?_, ?_, ?_⟩
            · show findDir k s2.dirs = findDir k s.dirs
              rw [← hs2, saveOutputs_preserves outs _ k hk,
                findDir_writeTmpFile k _ _ hk, findDir_initTmpDir k s hk]
            · show s2.rootExists = s.rootExists
              rw [← hs2]
              exact (saveOutputs_preserves_meta outs _).1
            · show s2.configExists = s.configExists
              rw [← hs2]
              exact (saveOutputs_preserves_meta outs _).2.1
            · show s2.rootFiles = s.rootFiles
              rw [← hs2]
              exact (saveOutputs_preserves_meta outs _).2.2
          · simp at hres

/-- A dataset function whose body raises. -/
def failingFn : DFun := ⟨"00000000000000fe", [], .error "boom in body"⟩

/-- An OK store already holding the target dataset of the failing
function. -/
def fsWithTarget : FS := ⟨true, true, [("00000000000000fe", ["old.pkl"])], []⟩

/-- Witness for claim C10: the staging theorem applied to a concrete failing
function whose target dataset pre-exists; the old directory is untouched. -/
theorem c10_save_staging_atomicity_witness :
    findDir "00000000000000fe" (Store.save failingFn true fsWithTarget).2.dirs =
      findDir "00000000000000fe" fsWithTarget.dirs ∧
    (Store.save failingFn true fsWithTarget).2.rootExists = fsWithTarget.rootExists :=
  ⟨(c10_save_staging_atomicity fsWithTarget failingFn (.unitError "boom in body") rfl).1
      "00000000000000fe" (by decide),
   (c10_save_staging_atomicity fsWithTarget failingFn (.unitError "boom in body") rfl).2.1⟩

/-- Index of the last dot character in a list of characters. -/
def rfindDot : List Char → Option Nat
  | [] => none
  | c :: rest =>
    match rfindDot rest with
    | some i => some (i + 1)
    | none => if c = '.' then some 0 else none

/-- Python PurePath.stem of a file name: the name without its last suffix,
where a suffix exists only when the last dot is neither the first nor the
last character. -/
def pyStem (s : String) : String :=
  match rfindDot s.data with
  | some i => if 0 < i ∧ i + 1 < s.data.length then String.mk (s.data.take i) else s
  | none => s

/-- Python PurePath.suffix of a file name under the same convention. -/
def pySuffix (s : String) : String :=
  match rfindDot s.data with
  | some i => if 0 < i ∧ i + 1 < s.data.length then String.mk (s.data.drop i) else ""
  | none => ""

/-- A value produced by the load path for one file. The codecs themselves
are external collaborators per the spec, so the value records which
capability produced it and from which file. -/
inductive LoadedValue where
  | data (fileName : String)
  | handle (fileName : String)
  | filepath (dirName fileName : String)
deriving Repr, DecidableEq

/-- load_dataset_file dispatch on the file suffix: the five supported
suffixes deserialize the content (the deserialized value itself is the
opaque codec collaborator), anything else raises IOError. -/
def loadDatasetFile (fn : String) : Except Err LoadedValue :=
  if pySuffix fn = ".pkl" ∨ pySuffix fn = ".h5ad" ∨ pySuffix fn = ".h5pd"
      ∨ pySuffix fn = ".json" ∨ pySuffix fn = ".csv" then .ok (.data fn)
  else .error (.ioError "do not know this file type")

/-- get_dataset_file_handle dispatch on the file suffix: the h5ad branch
calls open with file mode b, which open itself rejects with a ValueError;
the three text suffixes open a handle; anything else raises IOError. -/
def getDatasetFileHandle (fn : String) : Except Err LoadedValue :=
  if pySuffix fn = ".h5ad" then .error (.valueError "invalid file mode b")
  else if pySuffix fn = ".txt" ∨ pySuffix fn = ".csv" ∨ pySuffix fn = ".tsv" then
    .ok (.handle fn)
  else .error (.ioError "do not know this file type")

namespace Store

/-- DatasetDict.__setitem__: keys must be strings (always true here by
typing), and assigning to an existing key is refused with a KeyError. -/
def dictInsert (d : List (String × LoadedValue)) (k : String) (v : LoadedValue) :
    Except Err (List (String × LoadedValue)) :=
  if k ∈ d.map Prod.fst then .error (.keyError k) else .ok (d ++ [(k, v)])

/-- The value computed for one file by the mode dispatch inside the loop of
Store.load. -/
def valueFor (mode : String) (dirName : String) (fn : String) : Except Err LoadedValue :=
  if mode = "data" then loadDatasetFile fn
  else if mode = "handle" then getDatasetFileHandle fn
  else if mode = "filepath" then .ok (.filepath dirName fn)
  else .error (.valueError "Invalid mode")

/-- The loop of Store.load over the files of the dataset directory: the
metadata file is skipped, and every other file's value is computed according
to the mode and inserted under the extension-stripped base name. -/
def loadLoop (mode : String) (dirName : String) :
    List String → List (String × LoadedValue) → Except Err (List (String × LoadedValue))
  | [], acc => .ok acc
  | fn :: rest, acc =>
    if fn = "__metadata__.json" then loadLoop mode dirName rest acc
    else
      match valueFor mode dirName fn with
      | .error e => .error e
      | .ok v =>
        match dictInsert acc (pyStem fn) v with
        | .error e => .error e
        | .ok acc2 => loadLoop mode dirName rest acc2

/-- Store.load: assert OK, run the loop over the files of the dataset
directory (an absent directory yields no files), and refuse an empty result
with the existence error. -/
def load (f : DFun) (mode : String) (s : FS) : Except Err (List (String × LoadedValue)) :=
  match assertOk s with
  | .error e => .error e
  | .ok _ =>
    match loadLoop mode f.uuid ((findDir f.uuid s.dirs).getD []) [] with
    | .error e => .error e
    | .ok d =>
      if d = [] then .error (.fileExistsError "Dataset does not exist yet in store")
      else .ok d

end Store

/-- The files of the dataset directory other than the metadata file, in
directory order. -/
def nonMetaFiles (s : FS) (uuid : String) : List String :=
  ((findDir uuid s.dirs).getD []).filter (fun fn => fn != "__metadata__.json")

theorem loadLoop_ok (mode dirName : String) (v : String → LoadedValue) :
    ∀ (files : List String) (acc : List (String × LoadedValue)),
    (∀ fn ∈ files, fn ≠ "__metadata__.json" → Store.valueFor mode dirName fn = .ok (v fn)) →
    (acc.map Prod.fst ++
      (files.filter (fun fn => fn != "__metadata__.json")).map pyStem).Nodup →
    Store.loadLoop mode dirName files acc =
      .ok (acc ++ (files.filter (fun fn => fn != "__metadata__.json")).map
        (fun fn => (pyStem fn, v fn))) := by
  intro files
  induction files with
  | nil =>
    intro acc hv hnd
    simp [Store.loadLoop]
  | cons fn rest ih =>
    intro acc hv hnd
    by_cases hm : fn = "__metadata__.json"
    · subst hm
      simp only [Store.loadLoop, if_true]
      rw [ih acc (fun g hg hne => hv g (List.mem_cons_of_mem _ hg) hne)
        (by simpa [List.filter_cons] using hnd)]
      simp [List.filter_cons]
    · have hfilter : ((fn :: rest).filter (fun g => g != "__metadata__.json")) =
          fn :: rest.filter (fun g => g != "__metadata__.json") := by
        simp [List.filter_cons, hm]
      rw [hfilter] at hnd
      simp only [Store.loadLoop, if_neg hm]
      rw [hv fn (List.mem_cons_self _ _) hm]
      have hfresh : pyStem fn ∉ acc.map Prod.fst := by
        intro hmem
        rw [List.map_cons] at hnd
        exact (List.nodup_append.mp hnd).2.2 hmem (List.mem_cons_self _ _)
      dsimp only
      rw [show Store.dictInsert acc (pyStem fn) (v fn) =
          Except.ok (acc ++ [(pyStem fn, v fn)]) from by
        unfold Store.dictInsert
        exact if_neg hfresh]
      dsimp only
      rw [ih (acc ++ [(pyStem fn, v fn)])
        (fun g hg hne => hv g (List.mem_cons_of_mem _ hg) hne)
        (by rw [List.map_cons] at hnd ; simpa using hnd)]
      rw [hfilter]
      simp

/-- Claim C8 (amended): on an OK store, provided the extension-stripped base
names of the non-metadata files are pairwise distinct and the mode dispatch
succeeds on each of them, Store.load returns the mapping that keys the value
of each non-metadata file by its stem, in directory order, and fails with
the existence error exactly when no non-metadata file is present; two files
sharing a stem instead abort the load with the KeyError of DatasetDict. -/
theorem c8_load_spec (s : FS) (f : DFun) (mode : String) (v : String → LoadedValue)
    (hok : statusFS s = .ok)
    (hnd : ((nonMetaFiles s f.uuid).map pyStem).Nodup)
    (hv : ∀ fn ∈ nonMetaFiles s f.uuid, Store.valueFor mode f.uuid fn = .ok (v fn)) :
    (nonMetaFiles s f.uuid = [] →
      Store.load f mode s = .error (.fileExistsError "Dataset does not exist yet in store")) ∧
    (nonMetaFiles s f.uuid ≠ [] →
      Store.load f mode s = .ok ((nonMetaFiles s f.uuid).map (fun fn => (pyStem fn, v fn)))) := by
  have hloop : Store.loadLoop mode f.uuid ((findDir f.uuid s.dirs).getD []) [] =
      .ok ((nonMetaFiles s f.uuid).map (fun fn => (pyStem fn, v fn))) := by
    have hres := loadLoop_ok mode f.uuid v ((findDir f.uuid s.dirs).getD []) []
      (fun fn hfn hne => hv fn (by
        unfold nonMetaFiles
        rw [List.mem_filter]
        exact ⟨hfn, by simpa using hne⟩))
      (by
        unfold nonMetaFiles at hnd
        simpa using hnd)
    simpa [nonMetaFiles] using hres
  have hload : Store.load f mode s =
      (if (nonMetaFiles s f.uuid).map (fun fn => (pyStem fn, v fn)) = [] then
        .error (.fileExistsError "Dataset does not exist yet in store")
      else .ok ((nonMetaFiles s f.uuid).map (fun fn => (pyStem fn, v fn)))) := by
    unfold Store.load
    rw [assertOk_of_ok s hok]
    dsimp only
    rw [hloop]
  constructor
  · intro hempty
    rw [hload, if_pos (by rw [hempty] ; rfl)]
  · intro hne
    rw [hload, if_neg (by simpa using hne)]

/-- A store whose dataset directory holds two files with the same
extension-stripped base name. -/
def fsDupStems : FS :=
  ⟨true, true, [("0000000000000000", ["a.csv", "a.pkl"])], []⟩

/-- The dataset function with uuid zero, no dependencies and an empty
body. -/
def fnZero : DFun := ⟨"0000000000000000", [], .ok []⟩

/-- Claim C8 counterexample: with two files sharing the stem a, Store.load
in filepath mode aborts with the KeyError of DatasetDict instead of
returning a mapping covering every file, so the claim fails as stated. -/
theorem c8_counterexample_duplicate_stems :
    Store.load fnZero "filepath" fsDupStems = .error (.keyError "a") :=
  rfl

/-- A store whose dataset directory holds one pickled output and the
metadata file. -/
def fsLoadable : FS :=
  ⟨true, true, [("0000000000000000", ["x.pkl", "__metadata__.json"])], []⟩

/-- Witness for claim C8: the amended load theorem applied in data mode to a
concrete directory holding one pickled file and the metadata file. -/
theorem c8_load_spec_witness :
    Store.load fnZero "data" fsLoadable = .ok [("x", .data "x.pkl")] :=
  ((c8_load_spec fsLoadable fnZero "data" (fun fn => .data fn) rfl (by decide)
    (by decide)).2 (by decide)).trans (by decide)

end Datalair
